import Mathlib

/-!
Shallow embedding of the M-Pesa payment-confirmation parsing and validation
engine of `valentines/views.py` (`submit_manual_payment`,
`_parse_mpesa_message`, `_get_expected_price`) together with the data it
touches (the `Valentine` record of `valentines/models.py` and the
duplicate-code lookup `Valentine.objects.filter(mpesa_code=...).exclude(pk=...)`).

Text is modelled as `List Char` (ASCII range, which is all the patterns in
the source mention).  Python regular-expression searches are modelled by
direct scanning functions whose behaviour coincides with `re.search` for the
concrete patterns used in the source; `datetime.strptime` with the formats
`"%d/%m/%y %I:%M %p"` / `"%d/%m/%Y %I:%M %p"` is modelled on the strings fed
to it (which always match `\d{1,2}/\d{1,2}/\d{2,4}` and
`\d{1,2}:\d{2}\s+[AP]M` by construction), including the POSIX two-digit-year
pivot (00-68 -> 2000-2068, 69-99 -> 1969-1999) and calendar validation.
Monetary amounts are modelled as exact rationals; timestamps as seconds on a
civil-day line (both the parsed timestamp and `now` live in the same zone, so
a fixed-offset zone cancels in every comparison the code makes).
-/

namespace ValenAI

/-- ASCII whitespace, as split on by Python `str.split()` / matched by `\s`. -/
def isWs (c : Char) : Bool :=
  c = ' ' || c = '\t' || c = '\n' || c = '\r' || c = '\x0b' || c = '\x0c'

/-- Character class `[A-Z0-9]` of the transaction-code patterns. -/
def isCodeChar (c : Char) : Bool :=
  ('A' ≤ c && c ≤ 'Z') || c.isDigit

/-- ASCII uppercasing, as `str.upper()` acts on the ASCII-range text here. -/
def upperChar (c : Char) : Char :=
  if 'a' ≤ c && c ≤ 'z' then Char.ofNat (c.toNat - 32) else c

def upper (l : List Char) : List Char := l.map upperChar

/-- Python `str.split()` with no argument: split on whitespace runs,
dropping empty pieces; `acc` is the (reversed) word being accumulated. -/
def pySplitAux : List Char → List Char → List (List Char)
  | [], acc => if acc.isEmpty then [] else [acc.reverse]
  | c :: cs, acc =>
    if isWs c then
      if acc.isEmpty then pySplitAux cs [] else acc.reverse :: pySplitAux cs []
    else pySplitAux cs (c :: acc)

/-- `' '.join(message.split())`: collapse all whitespace runs to single
spaces and trim the ends (line 424 of views.py). -/
def normalizeWs (l : List Char) : List Char :=
  List.intercalate [' '] (pySplitAux l [])

/-- Python `str.strip()` on the raw request input (line 344). -/
def pyStrip (l : List Char) : List Char :=
  ((l.dropWhile isWs).reverse.dropWhile isWs).reverse

/-- Contiguous-substring test, as Python's `in` on strings. -/
def containsSub (hay needle : List Char) : Bool :=
  match hay with
  | [] => needle.isEmpty
  | _ :: tl => needle.isPrefixOf hay || containsSub tl needle

/-! ### Code extraction (views.py lines 426-435)

Primary pattern `^([A-Z0-9]{10})\s+Confirmed\.`, fallback `([A-Z0-9]{10})`
searched anywhere (leftmost match, as `re.search`). -/

/-- Anchored match of `^([A-Z0-9]{10})\s+Confirmed\.`: ten code characters
at the start, at least one whitespace, then the literal `Confirmed.`. -/
def matchAnchoredCode (m : List Char) : Option (List Char) :=
  let g := m.take 10
  if g.length = 10 && g.all isCodeChar then
    match m.drop 10 with
    | c :: rest =>
      if isWs c && ("Confirmed.".toList.isPrefixOf (rest.dropWhile isWs)) then
        some g
      else none
    | [] => none
  else none

/-- Leftmost occurrence of ten consecutive `[A-Z0-9]` characters
(the `re.search(r'([A-Z0-9]{10})', ...)` fallback). -/
def searchCode : List Char → Option (List Char)
  | [] => none
  | c :: cs =>
    let g := (c :: cs).take 10
    if g.length = 10 && g.all isCodeChar then some g else searchCode cs

/-- The two-stage code extraction of lines 428-435. -/
def extractCode (m : List Char) : Option (List Char) :=
  match matchAnchoredCode m with
  | some g => some g
  | none => searchCode m

/-! ### Amount extraction (views.py lines 437-447)

Pattern `Ksh([\d,]+\.?\d*)`, leftmost match; then commas are stripped and
the remainder is parsed as a decimal number (`float(...)`), which fails
exactly when no digit is present. -/

/-- Match the amount pattern with the literal `Ksh` at the head of `m`,
returning group 1.  `[\d,]+` takes the maximal digit-or-comma run (it must
be non-empty); an optional `.` follows, then `\d*` takes the maximal digit
run — greedy matching with no backtracking since the pieces are disjoint. -/
def matchAmountAt (m : List Char) : Option (List Char) :=
  match m with
  | 'K' :: 's' :: 'h' :: rest =>
    let g1 := rest.takeWhile (fun c => c.isDigit || c = ',')
    if g1.isEmpty then none
    else
      match rest.drop g1.length with
      | '.' :: rest2 => some (g1 ++ '.' :: rest2.takeWhile Char.isDigit)
      | _ => some g1
  | _ => none

/-- Leftmost match of `Ksh([\d,]+\.?\d*)` (group 1), as `re.search`. -/
def searchAmount : List Char → Option (List Char)
  | [] => none
  | c :: cs =>
    match matchAmountAt (c :: cs) with
    | some g => some g
    | none => searchAmount cs

/-- Numeric value of a digit string (most significant first). -/
def natOfDigits (l : List Char) : ℕ :=
  l.foldl (fun a c => 10 * a + (c.toNat - 48)) 0

/-- Python `float(s)` on the comma-stripped group: the group shape is
`digits* ('.' digits*)?`, and the parse succeeds exactly when at least one
digit is present (`float("")` and `float(".")` raise `ValueError`). -/
def parseFloat (s : List Char) : Option ℚ :=
  let ip := s.takeWhile Char.isDigit
  match s.drop ip.length with
  | [] => if ip.isEmpty then none else some (natOfDigits ip : ℚ)
  | '.' :: fp =>
    if fp.all Char.isDigit && (ip.length + fp.length ≠ 0) then
      some (mkRat (natOfDigits (ip ++ fp)) ((10 : ℕ) ^ fp.length))
    else none
  | _ => none

/-- Lines 443-447: strip commas from group 1, then `float(...)`. -/
def extractAmount (m : List Char) : Option (Option ℚ) :=
  match searchAmount m with
  | none => none
  | some g => some (parseFloat (g.filter (fun c => c ≠ ',')))

/-! ### Date and time extraction (views.py lines 449-470)

Pattern `on\s+(\d{1,2}/\d{1,2}/\d{2,4})\s+at\s+(\d{1,2}:\d{2}\s+[AP]M)`,
leftmost match.  The two captured strings are then re-parsed by
`datetime.strptime` with format `%d/%m/%y %I:%M %p` when the last
`/`-separated component of the date string has two characters, else
`%d/%m/%Y %I:%M %p`.  We keep the individual components: the date group has
exactly two slashes and digit-only pieces, so `date_str.split('/')` recovers
exactly `[day, mon, year]`. -/

structure DateParts where
  day : List Char
  mon : List Char
  year : List Char
  hour : List Char
  minute : List Char
  pm : Bool
deriving DecidableEq, Repr

/-- Consume one-or-more whitespace (`\s+`), maximal run. -/
def eatWs1 (l : List Char) : Option (List Char) :=
  match l with
  | c :: rest => if isWs c then some (rest.dropWhile isWs) else none
  | [] => none

/-- Consume a digit run whose maximal length lies in `[lo, hi]` (the regex
pieces `\d{1,2}` / `\d{2,4}` / `\d{2}` are each followed by a non-digit
literal or `\s+`, so a longer maximal run makes the whole position fail). -/
def eatDigits (lo hi : ℕ) (l : List Char) : Option (List Char × List Char) :=
  let run := l.takeWhile Char.isDigit
  if lo ≤ run.length && run.length ≤ hi then some (run, l.drop run.length)
  else none

/-- Match the full date pattern with the literal `on` at the head of `m`. -/
def matchDateAt (m : List Char) : Option DateParts :=
  match m with
  | 'o' :: 'n' :: r0 =>
    match eatWs1 r0 with
    | none => none
    | some r1 =>
      match eatDigits 1 2 r1 with
      | none => none
      | some (day, r2) =>
        match r2 with
        | '/' :: r3 =>
          match eatDigits 1 2 r3 with
          | none => none
          | some (mon, r4) =>
            match r4 with
            | '/' :: r5 =>
              match eatDigits 2 4 r5 with
              | none => none
              | some (year, r6) =>
                match eatWs1 r6 with
                | none => none
                | some r7 =>
                  match r7 with
                  | 'a' :: 't' :: r8 =>
                    match eatWs1 r8 with
                    | none => none
                    | some r9 =>
                      match eatDigits 1 2 r9 with
                      | none => none
                      | some (hour, r10) =>
                        match r10 with
                        | ':' :: r11 =>
                          match eatDigits 2 2 r11 with
                          | none => none
                          | some (minute, r12) =>
                            match eatWs1 r12 with
                            | none => none
                            | some r13 =>
                              match r13 with
                              | 'A' :: 'M' :: _ => some ⟨day, mon, year, hour, minute, false⟩
                              | 'P' :: 'M' :: _ => some ⟨day, mon, year, hour, minute, true⟩
                              | _ => none
                        | _ => none
                  | _ => none
            | _ => none
        | _ => none
  | _ => none

/-- Leftmost match of the date pattern, as `re.search`. -/
def searchDate : List Char → Option DateParts
  | [] => none
  | c :: cs =>
    match matchDateAt (c :: cs) with
    | some p => some p
    | none => searchDate cs

/-! ### `datetime.strptime` on the captured strings (views.py lines 458-470) -/

/-- The naive local `datetime` value built by `strptime` (seconds are 0). -/
structure PyDateTime where
  year : ℕ
  month : ℕ
  day : ℕ
  hour : ℕ
  minute : ℕ
deriving DecidableEq, Repr

def isLeap (y : ℕ) : Bool :=
  y % 4 = 0 && (y % 100 ≠ 0 || y % 400 = 0)

def daysInMonth (y m : ℕ) : ℕ :=
  if m = 2 then (if isLeap y then 29 else 28)
  else if m = 4 || m = 6 || m = 9 || m = 11 then 30
  else 31

/-- `datetime.strptime(dt_str, fmt)` on the regex-captured components.
The format is `%d/%m/%y %I:%M %p` when the year piece has two characters
(POSIX pivot: 00-68 -> 2000-2068, 69-99 -> 1969-1999), `%d/%m/%Y %I:%M %p`
otherwise (which demands exactly four year digits, so a three-digit year
fails).  The directive patterns bound the fields: `%d` accepts 1-31, `%m`
1-12, `%I` 1-12, `%M` 0-59, and constructing the date rejects a day beyond
the month's length; any failure raises and lands in the `except` branch. -/
def strptime (p : DateParts) : Option PyDateTime :=
  let d := natOfDigits p.day
  let mo := natOfDigits p.mon
  let h := natOfDigits p.hour
  let mi := natOfDigits p.minute
  let y? : Option ℕ :=
    if p.year.length = 2 then
      let v := natOfDigits p.year
      some (if v ≤ 68 then 2000 + v else 1900 + v)
    else if p.year.length = 4 then
      some (natOfDigits p.year)
    else none
  match y? with
  | none => none
  | some y =>
    if 1 ≤ d && 1 ≤ mo && mo ≤ 12 && 1 ≤ h && h ≤ 12 && mi ≤ 59
        && d ≤ daysInMonth y mo then
      some ⟨y, mo, d, h % 12 + (if p.pm then 12 else 0), mi⟩
    else none

/-- Lines 449-470 as one step: find the pattern, then `strptime`; the outer
`none` is the missing-pattern rejection, the inner one the format error. -/
def extractDateTime (m : List Char) : Option (Option PyDateTime) :=
  match searchDate m with
  | none => none
  | some p => some (strptime p)

/-! ### Timestamps

Both the parsed timestamp and `now` live in the configured local zone
(`timezone.make_aware(dt, timezone.get_current_timezone())`), so a fixed
zone offset cancels in every comparison; we place naive civil date-times on
a seconds line with days counted by the standard civil-from-days formula
(valid for the Gregorian years handled here). -/

/-- Days since 0000-03-01 of the proleptic Gregorian calendar (for y ≥ 1). -/
def daysFromCivil (y m d : ℕ) : ℕ :=
  let y' := if m ≤ 2 then y - 1 else y
  let era := y' / 400
  let yoe := y' % 400
  let mp := if m > 2 then m - 3 else m + 9
  let doy := (153 * mp + 2) / 5 + d - 1
  let doe := yoe * 365 + yoe / 4 - yoe / 100 + doy
  era * 146097 + doe

/-- Seconds on the civil time line. -/
def toSec (t : PyDateTime) : ℤ :=
  (daysFromCivil t.year t.month t.day : ℤ) * 86400
    + (t.hour : ℤ) * 3600 + (t.minute : ℤ) * 60

/-! ### `_parse_mpesa_message` (views.py lines 421-477) -/

/-- The five distinct parse-rejection messages of `_parse_mpesa_message`. -/
inductive ParseErr
  /-- "Could not find a valid M-Pesa transaction code in the message." -/
  | noCode
  /-- "Could not extract payment amount from the message." -/
  | noAmount
  /-- "Invalid amount format in message." -/
  | badAmount
  /-- "Could not find transaction date and time." -/
  | noDateTime
  /-- "Date format error: ..." -/
  | badDateTime
deriving DecidableEq, Repr

/-- The dict returned on parse success (lines 472-477). -/
structure ParsedTransaction where
  code : List Char
  amount : ℚ
  datetime : PyDateTime
  recipient : Bool
deriving DecidableEq, Repr

/-- `_parse_mpesa_message`: whitespace-normalize, then extract code, amount
and date+time in that order (first failure wins); the recipient flag is the
substring test `"ANDREW MUSILI" in message.upper()` on the normalized text
(the local `message` is rebound to its normalized form on line 424). -/
def parse_mpesa_message (msg : List Char) : Except ParseErr ParsedTransaction :=
  let m := normalizeWs msg
  match extractCode m with
  | none => .error .noCode
  | some code =>
    match extractAmount m with
    | none => .error .noAmount
    | some none => .error .badAmount
    | some (some amount) =>
      match extractDateTime m with
      | none => .error .noDateTime
      | some none => .error .badDateTime
      | some (some dt) =>
        .ok { code := code, amount := amount, datetime := dt,
              recipient := containsSub (upper m) "ANDREW MUSILI".toList }

/-! ### `submit_manual_payment` (views.py lines 337-414) -/

/-- The payment-relevant fields of the `Valentine` record (models.py). -/
structure Valentine where
  pk : ℕ
  template_type : List Char
  mpesa_code : List Char
  is_paid : Bool
  is_pending_verification : Bool
  amount_paid : ℚ
deriving DecidableEq, Repr

/-- `_get_expected_price` (views.py lines 416-419): any template other than
`poem` and `love_letter` falls back to 250. -/
def get_expected_price (template_type : List Char) : ℚ :=
  if template_type = "poem".toList then 500
  else if template_type = "love_letter".toList then 350
  else 250

/-- `Valentine.objects.filter(mpesa_code=mpesa_code).exclude(pk=valentine.pk).exists()`
(views.py line 395) over an explicit table of records. -/
def hasDuplicate (db : List Valentine) (selfPk : ℕ) (code : List Char) : Bool :=
  db.any (fun w => w.mpesa_code = code && w.pk ≠ selfPk)

/-- The distinct rejection branches of `submit_manual_payment`. -/
inductive SubmitErr
  /-- "M-Pesa message or code is required" (line 347) -/
  | emptyInput
  /-- a `_parse_mpesa_message` error surfaced verbatim (line 358) -/
  | parseErr (e : ParseErr)
  /-- recipient check failed (lines 366-370) -/
  | recipientMismatch
  /-- amount below the expected price (lines 374-378) -/
  | amountInsufficient
  /-- transaction older than 25 minutes (lines 382-386) -/
  | tooOld
  /-- transaction more than 5 minutes in the future (lines 388-392) -/
  | inFuture
  /-- code already used by another record (lines 395-399) -/
  | duplicateCode
deriving DecidableEq, Repr

/-- Outcome of `submit_manual_payment`: every rejection returns before the
record is touched, so both constructors carry the record state after the
call (on rejection the record as the handler leaves it, on acceptance the
saved record). -/
inductive SubmitResult
  | rejected (e : SubmitErr) (record : Valentine)
  | accepted (code : List Char) (record : Valentine)
deriving DecidableEq, Repr

/-- `submit_manual_payment` over an explicit record table and an explicit
`now` (seconds on the same civil time line as parsed timestamps).  Mirrors
the handler's control flow: strip; empty check; bare-code shape test
(`len < 15 and ' ' not in raw`); else parse and run the recipient, amount,
too-old and in-future checks in order; then in both shapes the duplicate
check; finally the field updates of lines 401-405 (`amount` is only in
scope on the full-message path, hence `amount_paid = 0` for bare codes). -/
def submit_manual_payment (db : List Valentine) (v : Valentine)
    (rawInput : List Char) (now : ℤ) : SubmitResult :=
  let raw := pyStrip rawInput
  if raw.isEmpty then .rejected .emptyInput v
  else if raw.length < 15 && !raw.contains ' ' then
    let code := upper raw
    if hasDuplicate db v.pk code then .rejected .duplicateCode v
    else .accepted code
      { v with mpesa_code := code, is_paid := true,
               is_pending_verification := true, amount_paid := 0 }
  else
    match parse_mpesa_message raw with
    | .error e => .rejected (.parseErr e) v
    | .ok p =>
      if !p.recipient then .rejected .recipientMismatch v
      else if p.amount < get_expected_price v.template_type then
        .rejected .amountInsufficient v
      else if toSec p.datetime < now - 25 * 60 then .rejected .tooOld v
      else if toSec p.datetime > now + 5 * 60 then .rejected .inFuture v
      else if hasDuplicate db v.pk p.code then .rejected .duplicateCode v
      else .accepted p.code
        { v with mpesa_code := p.code, is_paid := true,
                 is_pending_verification := true, amount_paid := p.amount }

/-! ### The spec's reason-code taxonomy

Modelled from the spec: section 7 groups the parser's five concrete
rejection messages into three reason codes — a malformed numeric or date
substring inside an otherwise-matching pattern is classed with the
missing-pattern case (`MissingAmount` / `MissingDateTime`). -/

inductive ReasonCode
  | MissingCode
  | MissingAmount
  | MissingDateTime
deriving DecidableEq, Repr

/-- The spec's classification of the parser's rejection messages. -/
def specReasonCode : ParseErr → ReasonCode
  | .noCode => .MissingCode
  | .noAmount => .MissingAmount
  | .badAmount => .MissingAmount
  | .noDateTime => .MissingDateTime
  | .badDateTime => .MissingDateTime

instance {ε α : Type} [DecidableEq ε] [DecidableEq α] :
    DecidableEq (Except ε α) := fun x y =>
  match x, y with
  | .error a, .error b =>
    if h : a = b then .isTrue (congrArg Except.error h)
    else .isFalse (fun hc => h (Except.error.inj hc))
  | .ok a, .ok b =>
    if h : a = b then .isTrue (congrArg Except.ok h)
    else .isFalse (fun hc => h (Except.ok.inj hc))
  | .error _, .ok _ => .isFalse (fun hc => Except.noConfusion hc)
  | .ok _, .error _ => .isFalse (fun hc => Except.noConfusion hc)

/-! ### Concrete instances used by the end-to-end examples -/

/-- The worked end-to-end example message of the spec. -/
def msgExample : List Char :=
  "UBEG76GMIO Confirmed. Ksh250.00 sent to ANDREW MUSILI on 14/2/26 at 8:28 AM".toList

/-- What `_parse_mpesa_message` extracts from `msgExample`. -/
def ptExample : ParsedTransaction :=
  ⟨"UBEG76GMIO".toList, 250, ⟨2026, 2, 14, 8, 28⟩, true⟩

/-- A record of the lowest price tier awaiting payment. -/
def vBasic : Valentine := ⟨1, "basic".toList, [], false, false, 0⟩

/-- 14/2/2026 08:40 AM, the `now` of the worked example, as seconds. -/
def nowExample : ℤ := toSec ⟨2026, 2, 14, 8, 40⟩

/-- The example message with the two-digit year `99` instead of `26`. -/
def msgY99 : List Char :=
  "UBEG76GMIO Confirmed. Ksh250.00 sent to ANDREW MUSILI on 14/2/99 at 8:28 AM".toList

/-- The example message with two spaces inside the recipient name. -/
def msgDoubleSpace : List Char :=
  "UBEG76GMIO Confirmed. Ksh250.00 sent to ANDREW  MUSILI on 14/2/26 at 8:28 AM".toList

/-- The example message with a comma thousands-separator amount. -/
def msgThousands : List Char :=
  "UBEG76GMIO Confirmed. Ksh1,250.50 sent to ANDREW MUSILI on 14/2/26 at 8:28 AM".toList

/-- The example message with a digit-free amount token after `Ksh`. -/
def msgBadAmount : List Char :=
  "UBEG76GMIO Confirmed. Ksh,. sent to ANDREW MUSILI on 14/2/26 at 8:28 AM".toList

/-- The example message with a different recipient name. -/
def msgWrongRecipient : List Char :=
  "UBEG76GMIO Confirmed. Ksh250.00 sent to JOHN DOE on 14/2/26 at 8:28 AM".toList

/-- A record of the highest price tier awaiting payment. -/
def vPoem : Valentine := ⟨1, "poem".toList, [], false, false, 0⟩

end ValenAI

namespace ValenAI

/-!
## Claims
-/

/-- C1: a full-message submission that parses, names the expected recipient,
carries an amount at least the required price of the category, has a
timestamp within the window from 25 minutes before now to 5 minutes after
now, and whose code is not bound to another record, is accepted with the
parsed code as normalized code and the parsed amount stored. -/
theorem C1_valid_full_message_accepted
    (db : List Valentine) (v : Valentine) (rawInput : List Char) (now : ℤ)
    (p : ParsedTransaction)
    (hne : (pyStrip rawInput).isEmpty = false)
    (hshape : ((pyStrip rawInput).length < 15 && !(pyStrip rawInput).contains ' ') = false)
    (hparse : parse_mpesa_message (pyStrip rawInput) = .ok p)
    (hrec : p.recipient = true)
    (hamt : get_expected_price v.template_type ≤ p.amount)
    (hold : now - 25 * 60 ≤ toSec p.datetime)
    (hfut : toSec p.datetime ≤ now + 5 * 60)
    (hdup : hasDuplicate db v.pk p.code = false) :
    submit_manual_payment db v rawInput now =
      .accepted p.code
        { v with mpesa_code := p.code, is_paid := true,
                 is_pending_verification := true, amount_paid := p.amount } := by
  have h0 : ¬ ((pyStrip rawInput).length < 15 ∧ ' ' ∉ pyStrip rawInput) := by
    simpa using hshape
  have h1 : ¬ p.amount < get_expected_price v.template_type := not_lt.mpr hamt
  have h2 : ¬ toSec p.datetime < now - 1500 := by omega
  have h3 : ¬ now + 300 < toSec p.datetime := by omega
  simp [submit_manual_payment, hne, h0, hparse, hrec, h1, h2, h3, hdup]

/-- C1 witness: the worked example — the example message against the lowest
tier with `now` = 14/2/2026 08:40 AM is accepted, the normalized code is
`UBEG76GMIO` and the stored amount 250. -/
theorem C1_witness :
    submit_manual_payment [] vBasic msgExample nowExample =
      .accepted "UBEG76GMIO".toList
        ⟨1, "basic".toList, "UBEG76GMIO".toList, true, true, 250⟩ :=
  C1_valid_full_message_accepted [] vBasic msgExample nowExample ptExample
    (by decide) (by decide) (by decide) (by decide) (by decide)
    (by decide) (by decide) (by decide)

/-- C3 counterexample: the date `14/2/99` has a two-digit year component,
yet the parser produces year 1999 — not a year of the current century, so
two-digit years are not always read as `20xx`. -/
theorem C3_counterexample :
    parse_mpesa_message msgY99 =
      .ok ⟨"UBEG76GMIO".toList, 250, ⟨1999, 2, 14, 8, 28⟩, true⟩ ∧
    ¬ (2000 ≤ (1999 : ℕ)) := by decide

/-- C3 (amended): a two-digit year component follows the POSIX `strptime`
pivot — values 00-68 become 2000-2068 and values 69-99 become 1969-1999;
in particular `"14/2/26"` is parsed as year 2026, never 1926. -/
theorem C3_two_digit_year_pivot (p : DateParts) (dt : PyDateTime)
    (hlen : p.year.length = 2) (h : strptime p = some dt) :
    dt.year = if natOfDigits p.year ≤ 68 then 2000 + natOfDigits p.year
              else 1900 + natOfDigits p.year := by
  simp only [strptime, hlen, if_true] at h
  split at h
  case isTrue hy =>
    split at h
    · injection h with h'
      subst h'
      simp [hy]
    · exact Option.noConfusion h
  case isFalse hy =>
    split at h
    · injection h with h'
      subst h'
      simp [hy]
    · exact Option.noConfusion h

/-- C3 witness: the date parts of `"14/2/26 at 8:28 AM"` give year 2026. -/
theorem C3_witness :
    (⟨2026, 2, 14, 8, 28⟩ : PyDateTime).year =
      if natOfDigits "26".toList ≤ 68 then 2000 + natOfDigits "26".toList
      else 1900 + natOfDigits "26".toList :=
  C3_two_digit_year_pivot
    ⟨"14".toList, "2".toList, "26".toList, "8".toList, "28".toList, false⟩
    ⟨2026, 2, 14, 8, 28⟩ (by decide) (by decide)

/-- C5: a non-empty trimmed input of fewer than 15 characters with no space
is treated as a bare code: it is uppercased and used as the normalized
code, the parser and the recipient, amount and recency checks are all
skipped, and only the duplicate check decides (with `amount_paid` stored
as 0 on acceptance). -/
theorem C5_bare_code_path (db : List Valentine) (v : Valentine)
    (raw : List Char) (now : ℤ)
    (hne : (pyStrip raw).isEmpty = false)
    (hlen : (pyStrip raw).length < 15)
    (hsp : (pyStrip raw).contains ' ' = false) :
    submit_manual_payment db v raw now =
      if hasDuplicate db v.pk (upper (pyStrip raw)) then
        .rejected .duplicateCode v
      else
        .accepted (upper (pyStrip raw))
          { v with mpesa_code := upper (pyStrip raw), is_paid := true,
                   is_pending_verification := true, amount_paid := 0 } := by
  have h0 : (pyStrip raw).length < 15 ∧ ' ' ∉ pyStrip raw :=
    ⟨hlen, by simpa using hsp⟩
  simp [submit_manual_payment, hne, h0]

/-- C5 witness: `"abc123xyz0"` (10 chars, no space) is uppercased and
accepted against an empty table, and the same bare code is rejected as a
duplicate when another record already carries it. -/
theorem C5_witness :
    (submit_manual_payment [] vBasic "abc123xyz0".toList 0 =
      .accepted "ABC123XYZ0".toList
        ⟨1, "basic".toList, "ABC123XYZ0".toList, true, true, 0⟩) ∧
    (submit_manual_payment [⟨2, "basic".toList, "ABC123XYZ0".toList, true, true, 0⟩]
        vBasic "ABC123XYZ0".toList 0 =
      .rejected .duplicateCode vBasic) :=
  ⟨(C5_bare_code_path [] vBasic "abc123xyz0".toList 0
      (by decide) (by decide) (by decide)).trans (by decide),
   (C5_bare_code_path [⟨2, "basic".toList, "ABC123XYZ0".toList, true, true, 0⟩]
      vBasic "ABC123XYZ0".toList 0
      (by decide) (by decide) (by decide)).trans (by decide)⟩

/-- C10: rejection is atomic — whenever `submit_manual_payment` rejects,
for any reason, the record it hands back is exactly the input record; no
field (`mpesa_code`, `is_paid`, `is_pending_verification`, `amount_paid`)
has been touched.  The record is mutated only on the acceptance path. -/
theorem C10_rejection_leaves_record_unchanged
    (db : List Valentine) (v : Valentine) (raw : List Char) (now : ℤ)
    (e : SubmitErr) (r : Valentine)
    (h : submit_manual_payment db v raw now = .rejected e r) :
    r = v := by
  simp only [submit_manual_payment] at h
  repeat' split at h
  all_goals
    first
      | (injection h with h1 h2; exact h2.symm)
      | exact SubmitResult.noConfusion h

/-- C10 witness: a duplicate-code rejection returns the record unchanged. -/
theorem C10_witness : vBasic = vBasic :=
  C10_rejection_leaves_record_unchanged
    [⟨2, "basic".toList, "ABC123XYZ0".toList, true, true, 0⟩] vBasic
    "ABC123XYZ0".toList 0 .duplicateCode vBasic (by decide)

/-- C2: on the full-message path the rules fire strictly in the order
recipient, amount, recency lower bound, recency upper bound — the first
failing rule produces the rejection regardless of later rules — and the
duplicate check is the last gate, reached only after all four pass; on the
bare-code path it is the only check. -/
theorem C2_rule_order (db : List Valentine) (v : Valentine)
    (raw : List Char) (now : ℤ) (p : ParsedTransaction)
    (hne : (pyStrip raw).isEmpty = false)
    (hshape : ((pyStrip raw).length < 15 && !(pyStrip raw).contains ' ') = false)
    (hparse : parse_mpesa_message (pyStrip raw) = .ok p) :
    (p.recipient = false →
      submit_manual_payment db v raw now = .rejected .recipientMismatch v) ∧
    (p.recipient = true →
      p.amount < get_expected_price v.template_type →
      submit_manual_payment db v raw now = .rejected .amountInsufficient v) ∧
    (p.recipient = true →
      get_expected_price v.template_type ≤ p.amount →
      toSec p.datetime < now - 25 * 60 →
      submit_manual_payment db v raw now = .rejected .tooOld v) ∧
    (p.recipient = true →
      get_expected_price v.template_type ≤ p.amount →
      now - 25 * 60 ≤ toSec p.datetime →
      now + 5 * 60 < toSec p.datetime →
      submit_manual_payment db v raw now = .rejected .inFuture v) ∧
    (p.recipient = true →
      get_expected_price v.template_type ≤ p.amount →
      now - 25 * 60 ≤ toSec p.datetime →
      toSec p.datetime ≤ now + 5 * 60 →
      hasDuplicate db v.pk p.code = true →
      submit_manual_payment db v raw now = .rejected .duplicateCode v) ∧
    (∀ (bare : List Char), (pyStrip bare).isEmpty = false →
      (pyStrip bare).length < 15 →
      (pyStrip bare).contains ' ' = false →
      submit_manual_payment db v bare now =
        if hasDuplicate db v.pk (upper (pyStrip bare)) then
          .rejected .duplicateCode v
        else
          .accepted (upper (pyStrip bare))
            { v with mpesa_code := upper (pyStrip bare), is_paid := true,
                     is_pending_verification := true, amount_paid := 0 }) := by
  have h0 : ¬ ((pyStrip raw).length < 15 ∧ ' ' ∉ pyStrip raw) := by
    simpa using hshape
  refine ⟨?_, ?_, ?_, ?_, ?_, ?_⟩
  · intro hr
    simp [submit_manual_payment, hne, h0, hparse, hr]
  · intro hr hlt
    simp [submit_manual_payment, hne, h0, hparse, hr, hlt]
  · intro hr hamt hold
    have h1 : ¬ p.amount < get_expected_price v.template_type := not_lt.mpr hamt
    have h2 : toSec p.datetime < now - 1500 := by omega
    simp [submit_manual_payment, hne, h0, hparse, hr, h1, h2]
  · intro hr hamt hold hfut
    have h1 : ¬ p.amount < get_expected_price v.template_type := not_lt.mpr hamt
    have h2 : ¬ toSec p.datetime < now - 1500 := by omega
    have h3 : now + 300 < toSec p.datetime := by omega
    simp [submit_manual_payment, hne, h0, hparse, hr, h1, h2, h3]
  · intro hr hamt hold hfut hdup
    have h1 : ¬ p.amount < get_expected_price v.template_type := not_lt.mpr hamt
    have h2 : ¬ toSec p.datetime < now - 1500 := by omega
    have h3 : ¬ now + 300 < toSec p.datetime := by omega
    simp [submit_manual_payment, hne, h0, hparse, hr, h1, h2, h3, hdup]
  · intro bare hbne hblen hbsp
    have hb0 : (pyStrip bare).length < 15 ∧ ' ' ∉ pyStrip bare :=
      ⟨hblen, by simpa using hbsp⟩
    simp [submit_manual_payment, hbne, hb0]

/-- C2 witness: a message naming the wrong recipient, whose amount is also
below the poem tier, whose timestamp is also far outside the window, and
whose code is also already bound to another record, is rejected for the
recipient — the first rule in the order. -/
theorem C2_witness :
    submit_manual_payment [⟨2, "poem".toList, "UBEG76GMIO".toList, true, true, 0⟩]
      vPoem msgWrongRecipient 0 = .rejected .recipientMismatch vPoem :=
  (C2_rule_order [⟨2, "poem".toList, "UBEG76GMIO".toList, true, true, 0⟩]
      vPoem msgWrongRecipient 0
      ⟨"UBEG76GMIO".toList, 250, ⟨2026, 2, 14, 8, 28⟩, false⟩
      (by decide) (by decide) (by decide)).1 (by decide)

/-- C4: on the full-message path, once recipient and amount pass, the
submission is rejected as too old exactly when the parsed timestamp is
strictly before `now` minus 25 minutes, and as in the future exactly when
it is strictly after `now` plus 5 minutes. -/
theorem C4_recency_window (db : List Valentine) (v : Valentine)
    (raw : List Char) (now : ℤ) (p : ParsedTransaction)
    (hne : (pyStrip raw).isEmpty = false)
    (hshape : ((pyStrip raw).length < 15 && !(pyStrip raw).contains ' ') = false)
    (hparse : parse_mpesa_message (pyStrip raw) = .ok p)
    (hrec : p.recipient = true)
    (hamt : get_expected_price v.template_type ≤ p.amount) :
    (submit_manual_payment db v raw now = .rejected .tooOld v ↔
      toSec p.datetime < now - 25 * 60) ∧
    (submit_manual_payment db v raw now = .rejected .inFuture v ↔
      now + 5 * 60 < toSec p.datetime) := by
  have h0 : ¬ ((pyStrip raw).length < 15 ∧ ' ' ∉ pyStrip raw) := by
    simpa using hshape
  have h1 : ¬ p.amount < get_expected_price v.template_type := not_lt.mpr hamt
  have key : submit_manual_payment db v raw now =
      if toSec p.datetime < now - 1500 then .rejected .tooOld v
      else if now + 300 < toSec p.datetime then .rejected .inFuture v
      else if hasDuplicate db v.pk p.code then .rejected .duplicateCode v
      else .accepted p.code
        { v with mpesa_code := p.code, is_paid := true,
                 is_pending_verification := true, amount_paid := p.amount } := by
    simp [submit_manual_payment, hne, h0, hparse, hrec, h1]
  rw [key]
  by_cases h2 : toSec p.datetime < now - 1500
  · rw [if_pos h2]
    exact ⟨iff_of_true rfl (by omega), iff_of_false (by simp) (by omega)⟩
  · rw [if_neg h2]
    by_cases h3 : now + 300 < toSec p.datetime
    · rw [if_pos h3]
      exact ⟨iff_of_false (by simp) (by omega), iff_of_true rfl (by omega)⟩
    · rw [if_neg h3]
      by_cases h4 : hasDuplicate db v.pk p.code
      · rw [if_pos h4]
        exact ⟨iff_of_false (by simp) (by omega), iff_of_false (by simp) (by omega)⟩
      · rw [if_neg h4]
        exact ⟨iff_of_false (by simp) (by omega), iff_of_false (by simp) (by omega)⟩

/-- C4 witness: with the example message, a `now` 25 minutes and 1 second
after the transaction time yields a too-old rejection; a `now` 24 minutes
after does not; and a `now` 5 minutes and 1 second before the transaction
time yields an in-the-future rejection. -/
theorem C4_witness :
    (submit_manual_payment [] vBasic msgExample (toSec ⟨2026, 2, 14, 8, 28⟩ + 1501) =
      .rejected .tooOld vBasic) ∧
    (submit_manual_payment [] vBasic msgExample (toSec ⟨2026, 2, 14, 8, 28⟩ + 1440) ≠
      .rejected .tooOld vBasic) ∧
    (submit_manual_payment [] vBasic msgExample (toSec ⟨2026, 2, 14, 8, 28⟩ - 301) =
      .rejected .inFuture vBasic) := by
  refine ⟨?_, ?_, ?_⟩
  · exact (C4_recency_window [] vBasic msgExample (toSec ⟨2026, 2, 14, 8, 28⟩ + 1501)
      ptExample (by decide) (by decide) (by decide) (by decide) (by decide)).1.mpr
      (by decide)
  · intro hcon
    exact absurd ((C4_recency_window [] vBasic msgExample (toSec ⟨2026, 2, 14, 8, 28⟩ + 1440)
      ptExample (by decide) (by decide) (by decide) (by decide) (by decide)).1.mp hcon)
      (by decide)
  · exact (C4_recency_window [] vBasic msgExample (toSec ⟨2026, 2, 14, 8, 28⟩ - 301)
      ptExample (by decide) (by decide) (by decide) (by decide) (by decide)).2.mpr
      (by decide)

/-- If every record carrying the code is the record being paid for, the
`filter(...).exclude(pk=...)` lookup finds nothing. -/
theorem hasDuplicate_eq_false (db : List Valentine) (pk : ℕ) (c : List Char)
    (h : ∀ w ∈ db, w.mpesa_code = c → w.pk = pk) :
    hasDuplicate db pk c = false := by
  simp only [hasDuplicate, List.any_eq_false, Bool.and_eq_true, decide_eq_true_eq,
    not_and, ne_eq, Bool.not_eq_true, Decidable.not_not]
  intro w hw hcode
  exact h w hw hcode

/-- C6: a submission whose normalized code is bound to a different existing
record is rejected as a duplicate even when every other check passes, on
both submission shapes; when the code is bound only to the record being
paid for (which the lookup excludes), the submission is not rejected as a
duplicate but accepted. -/
theorem C6_duplicate_check (db : List Valentine) (v : Valentine)
    (raw : List Char) (now : ℤ) (p : ParsedTransaction)
    (hne : (pyStrip raw).isEmpty = false) :
    ((pyStrip raw).length < 15 →
      (pyStrip raw).contains ' ' = false →
      hasDuplicate db v.pk (upper (pyStrip raw)) = true →
      submit_manual_payment db v raw now = .rejected .duplicateCode v) ∧
    (((pyStrip raw).length < 15 && !(pyStrip raw).contains ' ') = false →
      parse_mpesa_message (pyStrip raw) = .ok p →
      p.recipient = true →
      get_expected_price v.template_type ≤ p.amount →
      now - 25 * 60 ≤ toSec p.datetime →
      toSec p.datetime ≤ now + 5 * 60 →
      hasDuplicate db v.pk p.code = true →
      submit_manual_payment db v raw now = .rejected .duplicateCode v) ∧
    ((pyStrip raw).length < 15 →
      (pyStrip raw).contains ' ' = false →
      (∀ w ∈ db, w.mpesa_code = upper (pyStrip raw) → w.pk = v.pk) →
      submit_manual_payment db v raw now =
        .accepted (upper (pyStrip raw))
          { v with mpesa_code := upper (pyStrip raw), is_paid := true,
                   is_pending_verification := true, amount_paid := 0 }) ∧
    (((pyStrip raw).length < 15 && !(pyStrip raw).contains ' ') = false →
      parse_mpesa_message (pyStrip raw) = .ok p →
      p.recipient = true →
      get_expected_price v.template_type ≤ p.amount →
      now - 25 * 60 ≤ toSec p.datetime →
      toSec p.datetime ≤ now + 5 * 60 →
      (∀ w ∈ db, w.mpesa_code = p.code → w.pk = v.pk) →
      submit_manual_payment db v raw now =
        .accepted p.code
          { v with mpesa_code := p.code, is_paid := true,
                   is_pending_verification := true, amount_paid := p.amount }) := by
  refine ⟨?_, ?_, ?_, ?_⟩
  · intro hlen hsp hdup
    have h0 : (pyStrip raw).length < 15 ∧ ' ' ∉ pyStrip raw :=
      ⟨hlen, by simpa using hsp⟩
    simp [submit_manual_payment, hne, h0, hdup]
  · intro hshape hparse hr hamt hold hfut hdup
    have h0 : ¬ ((pyStrip raw).length < 15 ∧ ' ' ∉ pyStrip raw) := by
      simpa using hshape
    have h1 : ¬ p.amount < get_expected_price v.template_type := not_lt.mpr hamt
    have h2 : ¬ toSec p.datetime < now - 1500 := by omega
    have h3 : ¬ now + 300 < toSec p.datetime := by omega
    simp [submit_manual_payment, hne, h0, hparse, hr, h1, h2, h3, hdup]
  · intro hlen hsp hsame
    have h0 : (pyStrip raw).length < 15 ∧ ' ' ∉ pyStrip raw :=
      ⟨hlen, by simpa using hsp⟩
    have hdup := hasDuplicate_eq_false db v.pk (upper (pyStrip raw)) hsame
    simp [submit_manual_payment, hne, h0, hdup]
  · intro hshape hparse hr hamt hold hfut hsame
    have h0 : ¬ ((pyStrip raw).length < 15 ∧ ' ' ∉ pyStrip raw) := by
      simpa using hshape
    have h1 : ¬ p.amount < get_expected_price v.template_type := not_lt.mpr hamt
    have h2 : ¬ toSec p.datetime < now - 1500 := by omega
    have h3 : ¬ now + 300 < toSec p.datetime := by omega
    have hdup := hasDuplicate_eq_false db v.pk p.code hsame
    simp [submit_manual_payment, hne, h0, hparse, hr, h1, h2, h3, hdup]

/-- C6 witness: the example submission against a table where the code
belongs to record 2 is a duplicate rejection; against a table where the
only record carrying the code is the record being paid for (pk 1), it is
accepted — the resubmission path. -/
theorem C6_witness :
    (submit_manual_payment [⟨2, "basic".toList, "UBEG76GMIO".toList, true, true, 250⟩]
      vBasic msgExample nowExample = .rejected .duplicateCode vBasic) ∧
    (submit_manual_payment [⟨1, "basic".toList, "UBEG76GMIO".toList, true, true, 250⟩]
      vBasic msgExample nowExample =
      .accepted "UBEG76GMIO".toList
        ⟨1, "basic".toList, "UBEG76GMIO".toList, true, true, 250⟩) :=
  ⟨(C6_duplicate_check [⟨2, "basic".toList, "UBEG76GMIO".toList, true, true, 250⟩]
      vBasic msgExample nowExample ptExample (by decide)).2.1
      (by decide) (by decide) (by decide) (by decide) (by decide) (by decide) (by decide),
   (C6_duplicate_check [⟨1, "basic".toList, "UBEG76GMIO".toList, true, true, 250⟩]
      vBasic msgExample nowExample ptExample (by decide)).2.2.2
      (by decide) (by decide) (by decide) (by decide) (by decide) (by decide) (by decide)⟩

/-- C7 counterexample: with two spaces inside the recipient name, the
original message does not contain `ANDREW MUSILI` even case-insensitively,
yet the parse result has the recipient flag set — the test runs on the
whitespace-normalized text, not the original. -/
theorem C7_counterexample :
    containsSub (upper msgDoubleSpace) "ANDREW MUSILI".toList = false ∧
    parse_mpesa_message msgDoubleSpace =
      .ok ⟨"UBEG76GMIO".toList, 250, ⟨2026, 2, 14, 8, 28⟩, true⟩ := by decide

/-- C7 (amended): the recipient-match field of every successful parse is
the case-insensitive substring test of the expected recipient name against
the whitespace-normalized message text (not the original), and this step
never causes a parse failure — it only sets the boolean on the result. -/
theorem C7_recipient_on_normalized (msg : List Char) (p : ParsedTransaction)
    (h : parse_mpesa_message msg = .ok p) :
    p.recipient = containsSub (upper (normalizeWs msg)) "ANDREW MUSILI".toList := by
  simp only [parse_mpesa_message] at h
  repeat' split at h
  all_goals
    first
      | exact Except.noConfusion h
      | (injection h with h'; subst h'; rfl)

/-- C7 witness: the double-space message parses with recipient flag true,
matching the substring test on its normalized form. -/
theorem C7_witness :
    (⟨"UBEG76GMIO".toList, 250, ⟨2026, 2, 14, 8, 28⟩, true⟩ : ParsedTransaction).recipient =
      containsSub (upper (normalizeWs msgDoubleSpace)) "ANDREW MUSILI".toList :=
  C7_recipient_on_normalized msgDoubleSpace
    ⟨"UBEG76GMIO".toList, 250, ⟨2026, 2, 14, 8, 28⟩, true⟩ (by decide)

/-- C8: amount extraction strips comma thousands-separators, so
`Ksh1,250.50` parses to 1250.50; and a `Ksh` match whose numeric text
fails to parse as a number is rejected with the amount parse error, which
the spec classes as `MissingAmount` exactly like the no-pattern case. -/
theorem C8_amount_parsing :
    parse_mpesa_message msgThousands =
      .ok ⟨"UBEG76GMIO".toList, mkRat 125050 100, ⟨2026, 2, 14, 8, 28⟩, true⟩ ∧
    specReasonCode .badAmount = specReasonCode .noAmount ∧
    ∀ (msg c g : List Char),
      extractCode (normalizeWs msg) = some c →
      searchAmount (normalizeWs msg) = some g →
      parseFloat (g.filter (fun ch => ch ≠ ',')) = none →
      parse_mpesa_message msg = .error .badAmount := by
  refine ⟨by decide, rfl, ?_⟩
  intro msg c g hc hg hf
  simp only [parse_mpesa_message, extractAmount, hc, hg, hf]

/-- C8 witness: `Ksh,.` matches the numeric pattern but yields no digits,
and the message is rejected with the amount parse error. -/
theorem C8_witness :
    parse_mpesa_message msgBadAmount = .error .badAmount :=
  C8_amount_parsing.2.2 msgBadAmount "UBEG76GMIO".toList ",.".toList
    (by decide) (by decide) (by decide)

/-- C9: the parser is all-or-nothing — a success carries exactly the values
of all three required extractions (code, amount, date+time) plus the
recipient boolean, and an error names the first extraction in the order
code, amount, date+time that failed; no partial record exists. -/
theorem C9_all_or_nothing (msg : List Char) :
    (∀ p, parse_mpesa_message msg = .ok p →
      extractCode (normalizeWs msg) = some p.code ∧
      extractAmount (normalizeWs msg) = some (some p.amount) ∧
      extractDateTime (normalizeWs msg) = some (some p.datetime) ∧
      p.recipient = containsSub (upper (normalizeWs msg)) "ANDREW MUSILI".toList) ∧
    (∀ e, parse_mpesa_message msg = .error e →
      match e with
      | .noCode => extractCode (normalizeWs msg) = none
      | .noAmount => (∃ c, extractCode (normalizeWs msg) = some c) ∧
          extractAmount (normalizeWs msg) = none
      | .badAmount => (∃ c, extractCode (normalizeWs msg) = some c) ∧
          extractAmount (normalizeWs msg) = some none
      | .noDateTime => (∃ c, extractCode (normalizeWs msg) = some c) ∧
          (∃ a, extractAmount (normalizeWs msg) = some (some a)) ∧
          extractDateTime (normalizeWs msg) = none
      | .badDateTime => (∃ c, extractCode (normalizeWs msg) = some c) ∧
          (∃ a, extractAmount (normalizeWs msg) = some (some a)) ∧
          extractDateTime (normalizeWs msg) = some none) := by
  constructor
  · intro p h
    simp only [parse_mpesa_message] at h
    cases hc : extractCode (normalizeWs msg) with
    | none => rw [hc] at h; exact Except.noConfusion h
    | some c =>
      rw [hc] at h
      cases ha : extractAmount (normalizeWs msg) with
      | none => rw [ha] at h; exact Except.noConfusion h
      | some a? =>
        rw [ha] at h
        cases a? with
        | none => exact Except.noConfusion h
        | some a =>
          cases hd : extractDateTime (normalizeWs msg) with
          | none => rw [hd] at h; exact Except.noConfusion h
          | some d? =>
            rw [hd] at h
            cases d? with
            | none => exact Except.noConfusion h
            | some d =>
              injection h with h'
              subst h'
              exact ⟨rfl, rfl, rfl, rfl⟩
  · intro e h
    simp only [parse_mpesa_message] at h
    cases hc : extractCode (normalizeWs msg) with
    | none =>
      rw [hc] at h
      injection h with h'
      subst h'
      rfl
    | some c =>
      rw [hc] at h
      cases ha : extractAmount (normalizeWs msg) with
      | none =>
        rw [ha] at h
        injection h with h'
        subst h'
        exact ⟨⟨c, rfl⟩, rfl⟩
      | some a? =>
        rw [ha] at h
        cases a? with
        | none =>
          injection h with h'
          subst h'
          exact ⟨⟨c, rfl⟩, rfl⟩
        | some a =>
          cases hd : extractDateTime (normalizeWs msg) with
          | none =>
            rw [hd] at h
            injection h with h'
            subst h'
            exact ⟨⟨c, rfl⟩, ⟨a, rfl⟩, rfl⟩
          | some d? =>
            rw [hd] at h
            cases d? with
            | none =>
              injection h with h'
              subst h'
              exact ⟨⟨c, rfl⟩, ⟨a, rfl⟩, rfl⟩
            | some d => exact Except.noConfusion h

/-- C9 witness: the example message succeeds with exactly the three
extracted values and the recipient boolean. -/
theorem C9_witness :
    extractCode (normalizeWs msgExample) = some ptExample.code ∧
    extractAmount (normalizeWs msgExample) = some (some ptExample.amount) ∧
    extractDateTime (normalizeWs msgExample) = some (some ptExample.datetime) ∧
    ptExample.recipient =
      containsSub (upper (normalizeWs msgExample)) "ANDREW MUSILI".toList :=
  (C9_all_or_nothing msgExample).1 ptExample (by decide)

end ValenAI
